import Mathlib

/-!
Verification of the laiin marketplace catalog core (src/gui/backend.cpp)
against its natural-language specification.

The development shallowly embeds the two core subsystems:
* the content-addressed piece hasher used by `Backend::uploadImageToObject`
  (piece-size tier selection, chunking, the coverage assertion), and
* the catalog synchronization layer (`getProductRatings`, `getSellerRatings`,
  `getListings`, `getListingsByCategory`, `getListingsBySearchTerm`,
  `getSellerReputation`, `getProductStarCount`, `sortBy`, `isIllicitItem`).

Machine integers (`qint64`, `size_t`, `int`) are modelled as `Nat`/`Int` (all
quantities involved are small and nonnegative, far from any overflow), C++
`double` arithmetic is modelled exactly by `ℚ`, and the DHT client is an
explicit `String → DhtResponse` collaborator.
-/

/- ======================================================================
   Piece hasher (spec §4.1, backend.cpp:415-470)
   ====================================================================== -/

/-- Maximum supported image size in bytes.  `laiin_MAX_IMAGE_SIZE` is a
configured constant whose definition is not under `src/`; its value 2 MiB is
fixed by the tier comments in `uploadImageToObject` (backend.cpp:426, "If
image is 2 MB or more, piece length = 1 MB") and by spec §6 ("maximum object
size (top piece-size tier threshold)"). -/
def laiin_MAX_IMAGE_SIZE : Nat := 2097152

/-- `const size_t MEGABYTE = (laiin_MAX_IMAGE_SIZE / 2);` (backend.cpp:425). -/
def MEGABYTE : Nat := laiin_MAX_IMAGE_SIZE / 2

/-- Piece-size tier selection from `Backend::uploadImageToObject`
(backend.cpp:424-432).  `piece_size` starts at 16384 and the `if`/`else if`
chain overwrites it, evaluated largest threshold first. -/
def pieceSizeFor (size : Nat) : Nat :=
  if size ≥ laiin_MAX_IMAGE_SIZE then MEGABYTE
  else if size ≥ MEGABYTE then 524288
  else if size ≥ 524288 then 262144
  else if size ≥ 262144 then 131072
  else if size ≥ 131072 then 65536
  else if size ≥ 65536 then 32768
  else if size ≥ 32768 then 16384
  else 16384

/-- A file piece as produced by `laiin::FilePieceHasher` (`laiin::FilePiece`
with fields `bytes`, `hash`, `data`).  The SHA-256 digest is modelled as an
injective placeholder (the piece's own bytes); no claim depends on concrete
digest values, only on hashes being computed over exactly one piece. -/
structure FilePiece where
  bytes : Nat
  hash : List Nat
  data : List Nat
deriving DecidableEq

/-- Modelled from the spec: `laiin::FilePieceHasher::hash_file` is declared
and used by `backend.cpp` but its definition is not under `src/`.  Spec §4.1:
the payload is split into consecutive pieces of `pieceSize` bytes each, the
final piece holding the remainder; pieces are produced in stream order,
non-overlapping, covering the payload exactly once. -/
def chunkPieces (pieceSize : Nat) (payload : List Nat) : List (List Nat) :=
  if h : payload = [] ∨ pieceSize = 0 then []
  else payload.take pieceSize :: chunkPieces pieceSize (payload.drop pieceSize)
termination_by payload.length
decreasing_by
  push_neg at h
  have hpos : 0 < payload.length := List.length_pos.mpr h.1
  simp only [List.length_drop]
  omega

/-- Modelled from the spec: the byte source handed to
`FilePieceHasher::hash_file` (backend.cpp:436).  `none` models an unreadable
file; per spec §4.1 an unreadable or empty source yields zero pieces, and
each produced piece carries its byte count and a content hash computed over
exactly that piece's bytes. -/
def hash_file (pieceSize : Nat) (source : Option (List Nat)) : List FilePiece :=
  match source with
  | none => []
  | some payload =>
      (chunkPieces pieceSize payload).map fun c => ⟨c.length, c, c⟩

/-- The image object (`QVariantMap`) assembled by `uploadImageToObject`
(backend.cpp:451-467).  The `name`, `source`, `width` and `height` entries are
path/`QImage` plumbing carrying no hashed content and are not modelled. -/
structure ImageObject where
  size : Nat
  id : Nat
  piece_size : Nat
  pieces : List (List Nat)
  data : List Nat
deriving DecidableEq

/-- `Backend::uploadImageToObject` (backend.cpp:415-470): select the piece
size from the payload size, hash the file into pieces, fail with an empty
result when no pieces were produced (backend.cpp:437-440), otherwise sum the
piece byte counts (the loop at backend.cpp:445-449, checked against the
payload size by `assert(file_size == size)` at backend.cpp:452) and assemble
the object.  `QFileInfo::size()` is 0 for an unreadable file. -/
def uploadImageToObject (source : Option (List Nat)) (imageId : Nat) :
    Option ImageObject :=
  let size := (source.getD []).length
  let piece_size := pieceSizeFor size
  let file_pieces := hash_file piece_size source
  if file_pieces.isEmpty then none
  else
    let file_size := (file_pieces.map FilePiece.bytes).sum
    some { size := file_size
           id := imageId
           piece_size := piece_size
           pieces := file_pieces.map FilePiece.hash
           data := (file_pieces.map FilePiece.data).flatten }

/- ======================================================================
   Catalog synchronization layer: data model
   (spec §3, §4.3, §4.4; backend.cpp:538-741, 1095-1717)
   ====================================================================== -/

/-- The DHT reply for one key, as consumed by the per-key resolution loops.
`client->get(key, response)` fills `response`; the loops then parse it with
`nlohmann::json::parse` and branch on its shape:
* `error`   — the parsed JSON contains an `"error"` field;
* `noValue` — no error, but the `"response"` envelope lacks a `"value"`
  entry that is a string;
* `value d` — no error and the `"value"` string parses to the document `d`. -/
inductive DhtResponse (δ : Type) where
  | error : DhtResponse δ
  | noValue : DhtResponse δ
  | value : δ → DhtResponse δ
deriving DecidableEq

/-- A product-rating document fetched from the DHT, with the fields the
resolution loop reads (backend.cpp:587-596).  The loop reads the required
fields unconditionally and `expiration_date` only when present and a
string. -/
structure ProductRatingDoc where
  metadata : String
  rater_id : String
  comments : String
  signature : String
  stars : Int
  expiration_date : Option String
deriving DecidableEq

/-- The `QVariantMap` built per product-rating key (backend.cpp:589-596). -/
structure ProductRatingView where
  key : String
  rater_id : String
  comments : String
  signature : String
  stars : Int
  expiration_date : Option String
deriving DecidableEq

/-- A seller-rating document fetched from the DHT (backend.cpp:725-731). -/
structure SellerRatingDoc where
  metadata : String
  rater_id : String
  comments : String
  signature : String
  score : Int
deriving DecidableEq

/-- The `QVariantMap` built per seller-rating key (backend.cpp:727-731). -/
structure SellerRatingView where
  key : String
  rater_id : String
  comments : String
  signature : String
  score : Int
deriving DecidableEq

/-- The `product` sub-object of a listing document (backend.cpp:1390-1436).
`subcategories` keeps only string array elements, `attributes` is flattened
to each attribute object's optional `"weight"` field, `images` keeps only
entries carrying both `"name"` and `"id"`, matching the loops'
key-presence / `is_string` filters. -/
structure ProductObj where
  name : String
  description : String
  category : String
  subcategories : Option (List String)
  attributes : Option (List (Option ℚ))
  images : Option (List (Option (String × Int)))
  thumbnail : Option String
deriving DecidableEq

/-- A listing document fetched from the DHT, with the fields the listing
resolution loops read (backend.cpp:1331-1436).  `Option` marks the fields the
code reads only after a key-presence-and-type check; the remaining fields are
read unconditionally.  `double` values are modelled exactly by `ℚ`. -/
structure ListingDoc where
  metadata : String
  id : String
  seller_id : String
  quantity : Int
  price : ℚ
  currency : String
  condition : String
  location : Option String
  date : String
  quantity_per_order : Option Int
  payment_coins : Option (List String)
  payment_options : Option (List String)
  delivery_options : Option (List String)
  shipping_options : Option (List String)
  expiration_date : Option String
  product : ProductObj
deriving DecidableEq

/-- The listing `QVariantMap` built per key (backend.cpp:1333-1436).  A field
is `none` when the corresponding `insert` did not run. -/
structure ListingView where
  key : String
  listing_uuid : String
  seller_id : String
  quantity : Int
  price : ℚ
  currency : String
  condition : String
  location : Option String
  date : String
  quantity_per_order : Option Int
  payment_coins : Option (List String)
  payment_options : Option (List String)
  delivery_options : Option (List String)
  shipping_options : Option (List String)
  expiration_date : Option String
  product_name : String
  product_description : String
  product_categories : List String
  product_weight : Option ℚ
  product_images : Option (List (String × Int))
  product_thumbnail : Option String
deriving DecidableEq

/-- Field projection for `getProductRatings` (backend.cpp:589-596). -/
def mkProductRatingView (key : String) (d : ProductRatingDoc) : ProductRatingView :=
  { key := key
    rater_id := d.rater_id
    comments := d.comments
    signature := d.signature
    stars := d.stars
    expiration_date := d.expiration_date }

/-- Field projection for `getSellerRatings` (backend.cpp:727-731). -/
def mkSellerRatingView (key : String) (d : SellerRatingDoc) : SellerRatingView :=
  { key := key
    rater_id := d.rater_id
    comments := d.comments
    signature := d.signature
    score := d.score }

/-- Field projection for `getListings` / `getListingsByCategory`
(backend.cpp:1333-1436 and the line-identical backend.cpp:1600-1702).
`product_categories` is the primary category followed by the string
subcategories; `product_weight` is the last attribute weight inserted
(repeated `insert` overwrites); `product_images` keeps entries that carry
both `"name"` and `"id"`. -/
def mkListingView (key : String) (d : ListingDoc) : ListingView :=
  { key := key
    listing_uuid := d.id
    seller_id := d.seller_id
    quantity := d.quantity
    price := d.price
    currency := d.currency
    condition := d.condition
    location := d.location
    date := d.date
    quantity_per_order := d.quantity_per_order
    payment_coins := d.payment_coins
    payment_options := d.payment_options
    delivery_options := d.delivery_options
    shipping_options := d.shipping_options
    expiration_date := d.expiration_date
    product_name := d.product.name
    product_description := d.product.description
    product_categories := d.product.category :: (d.product.subcategories.getD [])
    product_weight := ((d.product.attributes.getD []).filterMap id).getLast?
    product_images := d.product.images.map fun l => l.filterMap id
    product_thumbnail := d.product.thumbnail }

/-- Field projection for `getListingsBySearchTerm` (backend.cpp:1162-1262):
identical to `mkListingView` except that this loop never reads
`product.thumbnail`, so the view lacks that entry. -/
def mkListingViewSearch (key : String) (d : ListingDoc) : ListingView :=
  { mkListingView key d with product_thumbnail := none }

/-- Modelled from the spec: the restricted-category identifier
`predefined_categories[25].name` read by `isIllicitItem` (backend.cpp:1824)
is configured outside `src/`; spec §6 calls it the "restricted-category
identifier".  Its concrete value is irrelevant to every claim. -/
def illicitCategoryName : String := "restricted"

/-- `Backend::isIllicitItem` (backend.cpp:1823-1837): an item is illicit when
its `product_categories` list contains the restricted category name.  The
loops call this only on listing views that were just built, which always
carry `product_categories` (backend.cpp:1406), so the missing-key early
return cannot fire there. -/
def isIllicitItem (v : ListingView) : Bool :=
  v.product_categories.contains illicitCategoryName

/- ======================================================================
   Catalog synchronization layer: per-key resolution loops
   (spec §4.3; backend.cpp:559-605, 697-736, 1131-1272, 1301-1446, 1568-1712)
   ====================================================================== -/

/-- The shared shape of the five per-key resolution loops.  For each key in
index-enumeration order:
* a fetch `error` issues `client->remove(key)` and skips (`continue`);
* a missing/unusable `value` appends the still-empty `QVariantMap` to the
  results (modelled as `none`), with no removal;
* otherwise the document is projected; `project` returns `none` when the
  loop's own checks (`metadata` mismatch, illicit item) hit a `continue`
  before the append, and `some view` for the appended populated map.
Returns the result list and the list of removed keys, both in key order.
The per-function differences live entirely in `project`. -/
def resolveKeys {δ β : Type} (store : String → DhtResponse δ)
    (project : String → δ → Option β) :
    List String → List (Option β) × List String
  | [] => ([], [])
  | k :: ks =>
    let rest := resolveKeys store project ks
    match store k with
    | .error => (rest.1, k :: rest.2)
    | .noValue => (none :: rest.1, rest.2)
    | .value d =>
      match project k d with
      | none => rest
      | some v => (some v :: rest.1, rest.2)

/-- Per-document step of `getProductRatings` (backend.cpp:583-599): on a
`metadata` tag other than `"product_rating"` the loop logs and `continue`s
before the append (backend.cpp:588); otherwise the populated map is built. -/
def projectProductRating (k : String) (d : ProductRatingDoc) : Option ProductRatingView :=
  if d.metadata ≠ "product_rating" then none
  else some (mkProductRatingView k d)

/-- Per-document step of `getSellerRatings` (backend.cpp:721-734): mismatch
check at backend.cpp:726. -/
def projectSellerRating (k : String) (d : SellerRatingDoc) : Option SellerRatingView :=
  if d.metadata ≠ "seller_rating" then none
  else some (mkSellerRatingView k d)

/-- Per-document step of `getListings` / `getListingsByCategory`
(backend.cpp:1327-1443, 1594-1709): mismatch check (backend.cpp:1332, 1599),
then the illicit-category skip when `hide_illicit_items` is set
(backend.cpp:1438-1442, 1704-1708). -/
def projectListing (hideIllicit : Bool) (k : String) (d : ListingDoc) : Option ListingView :=
  if d.metadata ≠ "listing" then none
  else
    let v := mkListingView k d
    if hideIllicit && isIllicitItem v then none else some v

/-- Per-document step of `getListingsBySearchTerm` (backend.cpp:1157-1268):
this loop reads `metadata` (backend.cpp:1161) but performs NO mismatch check,
so every parsed document is projected; only the illicit-category skip
(backend.cpp:1264-1268) can drop it. -/
def projectListingSearch (hideIllicit : Bool) (k : String) (d : ListingDoc) : Option ListingView :=
  let v := mkListingViewSearch k d
  if hideIllicit && isIllicitItem v then none else some v

/-- `Backend::getProductRatings` (backend.cpp:538-606): the per-key loop over
the `DISTINCT key` rows for `content = 'product_rating'`. -/
def getProductRatings (store : String → DhtResponse ProductRatingDoc)
    (keys : List String) : List (Option ProductRatingView) × List String :=
  resolveKeys store projectProductRating keys

/-- `Backend::getSellerRatings` (backend.cpp:676-741). -/
def getSellerRatings (store : String → DhtResponse SellerRatingDoc)
    (keys : List String) : List (Option SellerRatingView) × List String :=
  resolveKeys store projectSellerRating keys

/-- The resolution loop of `Backend::getListings` (backend.cpp:1301-1446),
before the sorting switch is applied to the catalog. -/
def getListingsLoop (store : String → DhtResponse ListingDoc)
    (hideIllicit : Bool) (keys : List String) :
    List (Option ListingView) × List String :=
  resolveKeys store (projectListing hideIllicit) keys

/-- The resolution loop of `Backend::getListingsByCategory`
(backend.cpp:1568-1712), line-identical to the `getListings` loop. -/
def getListingsByCategoryLoop (store : String → DhtResponse ListingDoc)
    (hideIllicit : Bool) (keys : List String) :
    List (Option ListingView) × List String :=
  resolveKeys store (projectListing hideIllicit) keys

/-- The resolution loop of `Backend::getListingsBySearchTerm`
(backend.cpp:1131-1273). -/
def getListingsBySearchTermLoop (store : String → DhtResponse ListingDoc)
    (hideIllicit : Bool) (keys : List String) :
    List (Option ListingView) × List String :=
  resolveKeys store (projectListingSearch hideIllicit) keys

/-- `true` exactly when the parsed fetch response for `k` contains an
`"error"` field, i.e. when the loop issues `client->remove(k)`. -/
def isErrorResp {δ : Type} (r : DhtResponse δ) : Bool :=
  match r with
  | .error => true
  | _ => false

/-- A key resolves cleanly: either its fetch errors (and it is removed), or
it yields a parsable document that survives the loop's checks.  Rules out
the missing-`value` and skipped-document cases. -/
def respOk {δ β : Type} (store : String → DhtResponse δ)
    (project : String → δ → Option β) (k : String) : Bool :=
  match store k with
  | .error => true
  | .noValue => false
  | .value d => (project k d).isSome

/- ======================================================================
   Aggregation helpers (spec §4.5; backend.cpp:472-673)
   ====================================================================== -/

/-- `rating_obj["score"].toInt()` (backend.cpp:613, 631, 660): the catalog
entries are the maps produced by the seller-ratings loop, so an entry may be
the empty map appended for a value-less key; `QVariant().toInt()` is `0`. -/
def scoreOf (r : Option SellerRatingView) : Int :=
  match r with
  | none => 0
  | some v => v.score

/-- `rating_obj["stars"].toInt()` (backend.cpp:489): `0` on the empty map. -/
def starsOf (r : Option ProductRatingView) : Int :=
  match r with
  | none => 0
  | some v => v.stars

/-- `static_cast<int>` on a `double` (backend.cpp:667): truncation toward
zero.  The `double` value being truncated is an exact rational (every finite
binary64 value is), so truncation is exact on `ℚ`. -/
def truncToInt (q : ℚ) : Int :=
  if q < 0 then ⌈q⌉ else ⌊q⌋

/-- Fuel-bounded `⌊log₂⌋` on naturals (`0` below 2).  Structural recursion on
the fuel keeps it kernel-reducible; passing the number itself as fuel always
suffices. -/
def log2Fuel : Nat → Nat → Nat
  | 0, _ => 0
  | fuel + 1, n => if 2 ≤ n then log2Fuel fuel (n / 2) + 1 else 0

/-- `⌊log₂ n⌋` for `n ≥ 1` (and `0` at `0`). -/
def natLog2 (n : Nat) : Nat := log2Fuel n n

/-- Fuel-bounded `⌈log₂⌉` on naturals. -/
def clog2Fuel : Nat → Nat → Nat
  | 0, _ => 0
  | fuel + 1, m => if m ≤ 1 then 0 else clog2Fuel fuel ((m + 1) / 2) + 1

/-- `⌈log₂ m⌉` for `m ≥ 1` (and `0` at `0`). -/
def natClog2 (m : Nat) : Nat := clog2Fuel m m

/-- `⌊log₂ q⌋` of a positive rational: for `q ≥ 1` it is `⌊log₂ ⌊q⌋⌋`; for
`0 < q < 1` it is `-⌈log₂ (q⁻¹)⌉ = -⌈log₂ ⌈q⁻¹⌉⌉` (the inner ceiling is
exact because powers of two are integers). -/
def ratLog2 (q : ℚ) : ℤ :=
  if 1 ≤ q then (natLog2 ⌊q⌋₊ : ℤ) else -(natClog2 ⌈q⁻¹⌉₊ : ℤ)

/-- Round a rational to the nearest integer, ties to even — the
integer-granularity core of IEEE-754 round-to-nearest-even. -/
def rneInt (x : ℚ) : ℤ :=
  let f := ⌊x⌋
  let frac := x - (f : ℚ)
  if frac < 1 / 2 then f
  else if 1 / 2 < frac then f + 1
  else if f % 2 = 0 then f else f + 1

/-- IEEE-754 binary64 rounding (round-to-nearest, ties-to-even) of an exact
rational value, in the normal range: the result is `m · 2^(e-52)` where
`e = ⌊log₂ |q|⌋` and `m` is the 53-bit significand obtained by rounding
`|q| · 2^(52-e)` to the nearest integer, ties to even (a carry to `2^53`
needs no renormalization, the value is already exact).  Subnormals, overflow
and NaN are not modelled: every value arising in `getSellerReputation` —
`0`, quotients `g/t` with `1 ≤ g ≤ t ≤ INT_MAX`, and their products with
`100` — lies far inside the binary64 normal range, and the `int → double`
conversions at backend.cpp:666 are exact below `2^53`. -/
def fl64 (q : ℚ) : ℚ :=
  if q = 0 then 0
  else
    let s : ℚ := if q < 0 then -1 else 1
    let a := |q|
    let e : ℤ := ratLog2 a
    let m : ℤ := rneInt (a * (2 : ℚ) ^ (52 - e))
    s * (m : ℚ) * (2 : ℚ) ^ (e - 52)

/-- `Backend::getSellerReputation(const QVariantList&)` (backend.cpp:653-668):
return `0` for an unrated seller, otherwise count score-1 ratings and return
`(good_ratings_count / (double)ratings_count) * 100` truncated to `int`.
The `double` expression performs two IEEE binary64 operations, each correctly
rounded — the division, then the multiplication by `100` — modelled by the
two `fl64` applications (both operands of each operation are exactly
representable: the `int` inputs are below `2^53` and `fl64`'s output is a
binary64 value). -/
def getSellerReputation (seller_ratings : List (Option SellerRatingView)) : Int :=
  let ratings_count := seller_ratings.length
  if ratings_count ≤ 0 then 0
  else
    let good_ratings_count : Int :=
      seller_ratings.foldl (fun acc r => if scoreOf r == 1 then acc + 1 else acc) 0
    truncToInt (fl64 (fl64 ((good_ratings_count : ℚ) / (ratings_count : ℚ)) * 100))

/-- `Backend::getProductStarCount(const QVariantList&, int)`
(backend.cpp:482-495): clamp `star_number` into `[1, 5]`, then count the
ratings whose `stars` equal it. -/
def getProductStarCountStar (product_ratings : List (Option ProductRatingView))
    (star_number : Int) : Int :=
  let star1 := if star_number > 5 then 5 else star_number
  let star2 := if star1 < 1 then 1 else star1
  product_ratings.foldl (fun acc r => if starsOf r == star2 then acc + 1 else acc) 0

/-- `Backend::getProductStarCount(const QString&, int)` (backend.cpp:497-500):
resolves the product's ratings (backend.cpp:498, result unused) and then
calls `getProductStarCount(product_id, star_number)` — the very same
overload, with unchanged arguments (backend.cpp:499).  The unbounded C++
recursion is embedded with explicit fuel; `none` means the call has not
returned within `fuel` recursive steps.  `indexKeys` models the local-index
lookup feeding `getProductRatings`. -/
def getProductStarCountByIdStar (store : String → DhtResponse ProductRatingDoc)
    (indexKeys : String → List String) (fuel : Nat)
    (product_id : String) (star_number : Int) : Option Int :=
  match fuel with
  | 0 => none
  | fuel + 1 =>
    let _product_ratings := getProductRatings store (indexKeys product_id)
    getProductStarCountByIdStar store indexKeys fuel product_id star_number

/- ======================================================================
   Catalog sorting (spec §4.5; backend.cpp:1727-1820)
   ====================================================================== -/

/-- `EnumWrapper::Sorting`, the case labels of the `sortBy` switch.  The enum
is declared outside `src/`; only the constructor identities matter. -/
inductive Sorting where
  | SortNone
  | SortByCategory
  | SortByMostRecent
  | SortByOldest
  | SortByAlphabeticalOrder
  | SortByPriceLowest
  | SortByPriceHighest
  | SortByAverageRating
  | SortByMostFavorited
  | SortByMostSales
deriving DecidableEq

/-- `a.toMap()["price"].toDouble()` (backend.cpp:1794): `0.0` on the empty
map appended for a value-less key. -/
def priceOf (e : Option ListingView) : ℚ :=
  match e with
  | none => 0
  | some v => v.price

/-- `listing.toMap()["date"].toString()` (backend.cpp:1743): `""` on the
empty map. -/
def dateOf (e : Option ListingView) : String :=
  match e with
  | none => ""
  | some v => v.date

/-- `listing.toMap()["product_name"].toString()` (backend.cpp:1784). -/
def productNameOf (e : Option ListingView) : String :=
  match e with
  | none => ""
  | some v => v.product_name

/-- The `Z`-suffix normalization applied before date comparison
(backend.cpp:1746-1752): `date.replace(date.length() - 1, 1, "+00:00")` when
the string ends with `"Z"`. -/
def normalizeZ (s : String) : String :=
  if s.endsWith "Z" then s.dropRight 1 ++ "+00:00" else s

/-- The contract of `std::sort(first, last, comp)`: the output is a
permutation of the input that is sorted with respect to the strict comparator
(`¬ comp b a` for every element `a` appearing before `b`).  The C++ standard
fixes nothing further — in particular not the relative order of elements the
comparator considers equivalent — so the call is modelled as a relation
between input and admissible outputs rather than as a function. -/
def stdSortRel {α : Type} (comp : α → α → Prop) (input output : List α) : Prop :=
  output.Perm input ∧ output.Pairwise fun a b => ¬ comp b a

/-- `Backend::sortBy` (backend.cpp:1727-1820), relationally: the switch
copies the catalog and sorts the copy with the comparator of the selected
order; `SortNone`, `SortByCategory`, `SortByAverageRating`,
`SortByMostFavorited`, `SortByMostSales` and unknown values leave the copy
untouched.  `dtLt` is the order `QDateTime::fromString(·, Qt::ISODateWithMs)`
comparison induces on the normalized date strings and `nameLt` the
case-insensitive `QString::compare` order — both external Qt collaborators,
passed as parameters; the claims below only involve the price branches. -/
def sortByRel (dtLt : String → String → Prop) (nameLt : String → String → Prop)
    (catalog : List (Option ListingView)) (sorting : Sorting)
    (sortedCatalog : List (Option ListingView)) : Prop :=
  match sorting with
  | .SortNone => sortedCatalog = catalog
  | .SortByCategory => sortedCatalog = catalog
  | .SortByMostRecent =>
      stdSortRel (fun a b => dtLt (normalizeZ (dateOf b)) (normalizeZ (dateOf a)))
        catalog sortedCatalog
  | .SortByOldest =>
      stdSortRel (fun a b => dtLt (normalizeZ (dateOf a)) (normalizeZ (dateOf b)))
        catalog sortedCatalog
  | .SortByAlphabeticalOrder =>
      stdSortRel (fun a b => nameLt (productNameOf a) (productNameOf b))
        catalog sortedCatalog
  | .SortByPriceLowest =>
      stdSortRel (fun a b => priceOf a < priceOf b) catalog sortedCatalog
  | .SortByPriceHighest =>
      stdSortRel (fun a b => priceOf b < priceOf a) catalog sortedCatalog
  | .SortByAverageRating => sortedCatalog = catalog
  | .SortByMostFavorited => sortedCatalog = catalog
  | .SortByMostSales => sortedCatalog = catalog

/- ======================================================================
   Concrete sample data (used by witnesses and counterexamples)
   ====================================================================== -/

/-- A well-formed product-rating document. -/
def sampleProductRatingDoc : ProductRatingDoc :=
  { metadata := "product_rating", rater_id := "r1", comments := "nice",
    signature := "sig", stars := 5, expiration_date := none }

/-- A product-rating document whose `metadata` tag is not
`"product_rating"`. -/
def wrongMetaRatingDoc : ProductRatingDoc :=
  { sampleProductRatingDoc with metadata := "listing" }

/-- A well-formed seller-rating document. -/
def sampleSellerRatingDoc : SellerRatingDoc :=
  { metadata := "seller_rating", rater_id := "r1", comments := "ok",
    signature := "sig", score := 1 }

/-- A product sub-object with only the required fields. -/
def sampleProduct : ProductObj :=
  { name := "Widget", description := "a widget", category := "tools",
    subcategories := none, attributes := none, images := none,
    thumbnail := none }

/-- A well-formed listing document. -/
def sampleListingDoc : ListingDoc :=
  { metadata := "listing", id := "uuid1", seller_id := "s1", quantity := 1,
    price := 5, currency := "USD", condition := "new", location := none,
    date := "2024-01-01T00:00:00Z", quantity_per_order := none,
    payment_coins := none, payment_options := none, delivery_options := none,
    shipping_options := none, expiration_date := none,
    product := sampleProduct }

/-- A document with full listing shape but a `"user"` metadata tag (the
schema-drift scenario of spec §4.3). -/
def userMetaListingDoc : ListingDoc :=
  { sampleListingDoc with metadata := "user" }

/-- A store where exactly the key `"gone"` answers with an error. -/
def storeRatingsW : String → DhtResponse ProductRatingDoc :=
  fun k => if k == "gone" then .error else .value sampleProductRatingDoc

/-- A store where exactly the key `"gone"` answers with an error. -/
def storeSellerW : String → DhtResponse SellerRatingDoc :=
  fun k => if k == "gone" then .error else .value sampleSellerRatingDoc

/-- A store where exactly the key `"gone"` answers with an error. -/
def storeListingW : String → DhtResponse ListingDoc :=
  fun k => if k == "gone" then .error else .value sampleListingDoc

/-- A store answering every key with the mismatched-metadata listing. -/
def storeUserMetaL : String → DhtResponse ListingDoc :=
  fun _ => .value userMetaListingDoc

/-- A store answering every key with the mismatched-metadata rating. -/
def storeWrongMetaR : String → DhtResponse ProductRatingDoc :=
  fun _ => .value wrongMetaRatingDoc

/-- A store whose responses carry no usable `value` field. -/
def storeNoValueR : String → DhtResponse ProductRatingDoc :=
  fun _ => .noValue

/-- A store whose responses carry no usable `value` field. -/
def storeNoValueL : String → DhtResponse ListingDoc :=
  fun _ => .noValue

/-- A populated catalog entry with the given key and price. -/
def listingViewPrice (k : String) (p : ℚ) : Option ListingView :=
  some { mkListingView k sampleListingDoc with price := p }

/-- A seller rating with score 1 (a "good" rating). -/
def goodSellerRating : Option SellerRatingView :=
  some { key := "k", rater_id := "r", comments := "c", signature := "s", score := 1 }

/-- A seller rating with score 0 (a "bad" rating). -/
def badSellerRating : Option SellerRatingView :=
  some { key := "k", rater_id := "r", comments := "c", signature := "s", score := 0 }

/-- Fifty seller ratings of which exactly 29 carry score 1. -/
def fiftyRatings : List (Option SellerRatingView) :=
  List.replicate 29 goodSellerRating ++ List.replicate 21 badSellerRating

/- ======================================================================
   Helper lemmas
   ====================================================================== -/

theorem chunkPieces_sum_length (pieceSize : Nat) (hps : pieceSize ≠ 0)
    (payload : List Nat) :
    ((chunkPieces pieceSize payload).map List.length).sum = payload.length := by
  induction payload using chunkPieces.induct pieceSize with
  | case1 l h =>
      have hl : l = [] := by tauto
      subst hl; rw [chunkPieces]; simp
  | case2 l h ih =>
      rw [chunkPieces, dif_neg h]
      push_neg at h
      have hpos : 0 < l.length := List.length_pos.mpr h.1
      simp only [List.map_cons, List.sum_cons, ih, List.length_take,
        List.length_drop]
      omega

theorem chunkPieces_flatten (pieceSize : Nat) (hps : pieceSize ≠ 0)
    (payload : List Nat) :
    (chunkPieces pieceSize payload).flatten = payload := by
  induction payload using chunkPieces.induct pieceSize with
  | case1 l h =>
      have hl : l = [] := by tauto
      subst hl; rw [chunkPieces]; simp
  | case2 l h ih =>
      rw [chunkPieces, dif_neg h]
      simp only [List.flatten_cons, ih, List.take_append_drop]

theorem chunkPieces_length (pieceSize : Nat) (hps : pieceSize ≠ 0)
    (payload : List Nat) :
    (chunkPieces pieceSize payload).length
      = (payload.length + pieceSize - 1) / pieceSize := by
  induction payload using chunkPieces.induct pieceSize with
  | case1 l h =>
      have hl : l = [] := by tauto
      subst hl; rw [chunkPieces]
      simp only [List.length_nil, List.length, Nat.zero_add]
      rw [Nat.div_eq_of_lt (by omega)]
  | case2 l h ih =>
      rw [chunkPieces, dif_neg h]
      push_neg at h
      have hpos : 0 < l.length := List.length_pos.mpr h.1
      simp only [List.length_cons, ih, List.length_drop]
      rcases Nat.lt_or_ge l.length pieceSize with hlt | hge
      · have h1 : l.length - pieceSize = 0 := by omega
        rw [h1]
        have h2 : (0 + pieceSize - 1) / pieceSize = 0 :=
          Nat.div_eq_of_lt (by omega)
        rw [h2]
        have h3 : l.length + pieceSize - 1 = (l.length - 1) + pieceSize := by
          omega
        rw [h3, Nat.add_div_right _ (by omega)]
        rw [Nat.div_eq_of_lt (by omega)]
      · have h3 : l.length - pieceSize + pieceSize - 1 = l.length - 1 := by
          omega
        have h4 : l.length + pieceSize - 1 = (l.length - 1) + pieceSize := by
          omega
        rw [h3, h4, Nat.add_div_right _ (by omega)]

theorem pieceSizeFor_ne_zero (n : Nat) : pieceSizeFor n ≠ 0 := by
  simp only [pieceSizeFor, MEGABYTE, laiin_MAX_IMAGE_SIZE]
  split_ifs <;> omega

theorem hash_file_length (pieceSize : Nat) (hps : pieceSize ≠ 0)
    (payload : List Nat) :
    (hash_file pieceSize (some payload)).length
      = (payload.length + pieceSize - 1) / pieceSize := by
  simp only [hash_file, List.length_map]
  exact chunkPieces_length pieceSize hps payload

theorem foldl_count_int {α : Type} (p : α → Bool) (l : List α) (n : Int) :
    l.foldl (fun acc x => if p x then acc + 1 else acc) n
      = n + (l.countP p : Int) := by
  induction l generalizing n with
  | nil => simp
  | cons a l ih =>
      simp only [List.foldl_cons, List.countP_cons, ih]
      split_ifs <;> push_cast <;> ring

theorem fl64_eval_pos (q : ℚ) (e m : ℤ) (hq : 0 < q)
    (he : ratLog2 q = e)
    (hm : rneInt (q * (2 : ℚ) ^ (52 - e)) = m) :
    fl64 q = (m : ℚ) * (2 : ℚ) ^ (e - 52) := by
  simp only [fl64]
  rw [if_neg hq.ne', if_neg (not_lt.mpr hq.le), abs_of_pos hq, he, hm, one_mul]

theorem ratLog2_lt_one (q : ℚ) (h1 : ¬ 1 ≤ q) (c : ℕ) (hc : ⌈q⁻¹⌉₊ = c) :
    ratLog2 q = -(natClog2 c : ℤ) := by
  rw [ratLog2, if_neg h1, hc]

theorem ratLog2_ge_one (q : ℚ) (h1 : 1 ≤ q) (f : ℕ) (hf : ⌊q⌋₊ = f) :
    ratLog2 q = (natLog2 f : ℤ) := by
  rw [ratLog2, if_pos h1, hf]

theorem rneInt_down (x : ℚ) (f : ℤ) (hf : ⌊x⌋ = f) (hfr : x - (f : ℚ) < 1 / 2) :
    rneInt x = f := by
  simp only [rneInt]
  rw [hf, if_pos hfr]

theorem isErrorResp_error {δ : Type} : isErrorResp (.error : DhtResponse δ) = true := rfl

theorem isErrorResp_noValue {δ : Type} : isErrorResp (.noValue : DhtResponse δ) = false := rfl

theorem isErrorResp_value {δ : Type} (d : δ) : isErrorResp (.value d) = false := rfl

theorem resolveKeys_resilience {δ β : Type} (store : String → DhtResponse δ)
    (project : String → δ → Option β) (keys : List String)
    (h : ∀ k ∈ keys, respOk store project k = true) :
    (resolveKeys store project keys).1.length
        = keys.length - keys.countP (fun k => isErrorResp (store k)) ∧
    (resolveKeys store project keys).2
        = keys.filter fun k => isErrorResp (store k) := by
  induction keys with
  | nil => simp [resolveKeys]
  | cons k ks ih =>
      have hk := h k (List.mem_cons_self k ks)
      have hks : ∀ x ∈ ks, respOk store project x = true := fun x hx =>
        h x (List.mem_cons_of_mem _ hx)
      obtain ⟨ih1, ih2⟩ := ih hks
      have hcount : ks.countP (fun k => isErrorResp (store k)) ≤ ks.length :=
        List.countP_le_length _
      cases hsk : store k with
      | error =>
          constructor
          · simp only [resolveKeys, hsk, ih1, List.length_cons,
              List.countP_cons, isErrorResp_error, if_true]
            omega
          · simp only [resolveKeys, hsk, List.filter_cons, isErrorResp_error,
              if_true, ih2]
      | noValue =>
          rw [respOk, hsk] at hk
          simp at hk
      | value d =>
          have hsome : (project k d).isSome := by
            rw [respOk, hsk] at hk
            exact hk
          obtain ⟨v, hv⟩ := Option.isSome_iff_exists.mp hsome
          constructor
          · simp only [resolveKeys, hsk, hv, List.length_cons,
              List.countP_cons, isErrorResp_value, ih1]
            simp only [Bool.false_eq_true, if_false]
            omega
          · simp only [resolveKeys, hsk, hv, List.filter_cons,
              isErrorResp_value, ih2]
            simp

/- ======================================================================
   Claim theorems
   ====================================================================== -/

/-- C2 (counterexample): the claim fixes piece size 131072 (128 KB) and 5
pieces for a 600,000-byte payload, but `uploadImageToObject` selects
`piece_size = 262144` for any size in `[524288, 1048576)` (backend.cpp:428),
and a 600,000-byte payload therefore splits into 3 pieces, not 5. -/
theorem piece_size_600000_counterexample :
    pieceSizeFor 600000 = 262144 ∧ pieceSizeFor 600000 ≠ 131072 ∧
    (hash_file (pieceSizeFor 600000) (some (List.replicate 600000 0))).length = 3 ∧
    (hash_file (pieceSizeFor 600000) (some (List.replicate 600000 0))).length ≠ 5 := by
  have hps : pieceSizeFor 600000 = 262144 := by decide
  have hlen : (hash_file (pieceSizeFor 600000)
      (some (List.replicate 600000 0))).length = 3 := by
    rw [hps, hash_file_length 262144 (by norm_num), List.length_replicate]
  exact ⟨hps, by rw [hps]; norm_num, hlen, by rw [hlen]; norm_num⟩

/-- C2 (amended): for a payload of exactly 600,000 bytes the piece hasher
selects piece size 262144 bytes (256 KB, since 600,000 ≥ 524,288 but
< 1,048,576) and produces exactly 3 pieces (2 full 256 KiB pieces plus one
remainder piece of 75,712 bytes). -/
theorem piece_size_600000 :
    ∀ (payload : List Nat), payload.length = 600000 →
      pieceSizeFor payload.length = 262144 ∧
      (hash_file (pieceSizeFor payload.length) (some payload)).length = 3 := by
  intro payload hlen
  rw [hlen]
  refine ⟨by decide, ?_⟩
  rw [hash_file_length _ (by decide), hlen]
  decide

/-- Witness for `piece_size_600000` at the concrete 600,000-byte payload
`List.replicate 600000 0`. -/
theorem piece_size_600000_witness :
    pieceSizeFor (List.replicate 600000 (0 : Nat)).length = 262144 ∧
    (hash_file (pieceSizeFor (List.replicate 600000 (0 : Nat)).length)
      (some (List.replicate 600000 0))).length = 3 :=
  piece_size_600000 (List.replicate 600000 0) (List.length_replicate 600000 0)

/-- C3 (counterexample): the claim says every payload below the smallest
threshold (32 KB) produces exactly one piece, but a 20,000-byte payload
(20,000 < 32,768) gets piece size 16,384 and splits into 2 pieces. -/
theorem small_payload_single_piece_counterexample :
    (20000 : Nat) < 32768 ∧ pieceSizeFor 20000 = 16384 ∧
    (hash_file (pieceSizeFor 20000) (some (List.replicate 20000 0))).length = 2 := by
  refine ⟨by norm_num, by decide, ?_⟩
  rw [hash_file_length _ (pieceSizeFor_ne_zero 20000), List.length_replicate]
  decide

/-- C3 (amended): the tier chain of `uploadImageToObject` (backend.cpp:424-432)
evaluates thresholds largest-first — ≥ 2 MB gives 1 MB pieces, ≥ 1 MB gives
512 KB, ≥ 512 KB gives 256 KB, ≥ 256 KB gives 128 KB, ≥ 128 KB gives 64 KB,
≥ 64 KB gives 32 KB, and everything below 64 KB (both the ≥ 32 KB tier and
the default) gives the 16 KB floor — and exactly one piece is produced for
every nonempty payload of at most 16 KB (16,384 bytes); payloads of
16,385..32,767 bytes produce two pieces, so "below 32 KB" is not enough. -/
theorem piece_size_tier_boundaries :
    ∀ (n : Nat) (payload : List Nat),
      ((2097152 ≤ n → pieceSizeFor n = 1048576) ∧
       (1048576 ≤ n → n < 2097152 → pieceSizeFor n = 524288) ∧
       (524288 ≤ n → n < 1048576 → pieceSizeFor n = 262144) ∧
       (262144 ≤ n → n < 524288 → pieceSizeFor n = 131072) ∧
       (131072 ≤ n → n < 262144 → pieceSizeFor n = 65536) ∧
       (65536 ≤ n → n < 131072 → pieceSizeFor n = 32768) ∧
       (n < 65536 → pieceSizeFor n = 16384)) ∧
      (1 ≤ payload.length → payload.length ≤ 16384 →
        (hash_file (pieceSizeFor payload.length) (some payload)).length = 1) := by
  intro n payload
  constructor
  · refine ⟨?_, ?_, ?_, ?_, ?_, ?_, ?_⟩ <;>
      · intros
        simp only [pieceSizeFor, MEGABYTE, laiin_MAX_IMAGE_SIZE]
        split_ifs <;> omega
  · intro h1 h2
    have hps : pieceSizeFor payload.length = 16384 := by
      simp only [pieceSizeFor, MEGABYTE, laiin_MAX_IMAGE_SIZE]
      split_ifs <;> omega
    rw [hps, hash_file_length _ (by norm_num)]
    omega

/-- Witness for `piece_size_tier_boundaries`: a 5,000,000-byte size takes the
top tier, and a 100-byte payload is hashed into a single piece. -/
theorem piece_size_tier_boundaries_witness :
    pieceSizeFor 5000000 = 1048576 ∧
    (hash_file (pieceSizeFor (List.replicate 100 (0 : Nat)).length)
      (some (List.replicate 100 0))).length = 1 := by
  have h1 := piece_size_tier_boundaries 5000000 (List.replicate 100 0)
  have h2 := piece_size_tier_boundaries 0 (List.replicate 100 0)
  refine ⟨h1.1.1 (by norm_num), h1.2 ?_ ?_⟩ <;>
    rw [List.length_replicate] <;> norm_num

/-- C4: piece coverage — for every payload, the pieces produced by
`uploadImageToObject`'s hashing step have byte counts summing to exactly the
payload size (so the `assert(file_size == size)` at backend.cpp:452 can never
fire), and their concatenated data is the payload itself: the pieces cover
`[0, N)` in order, without gaps or overlaps. -/
theorem piece_coverage :
    ∀ (payload : List Nat),
      ((hash_file (pieceSizeFor payload.length) (some payload)).map
          FilePiece.bytes).sum = payload.length ∧
      ((hash_file (pieceSizeFor payload.length) (some payload)).map
          FilePiece.data).flatten = payload := by
  intro payload
  constructor
  · simp only [hash_file, List.map_map]
    have : (FilePiece.bytes ∘ fun c : List Nat => FilePiece.mk c.length c c)
        = List.length := rfl
    rw [this]
    exact chunkPieces_sum_length _ (pieceSizeFor_ne_zero _) _
  · simp only [hash_file, List.map_map]
    have : (FilePiece.data ∘ fun c : List Nat => FilePiece.mk c.length c c)
        = id := rfl
    rw [this, List.map_id]
    exact chunkPieces_flatten _ (pieceSizeFor_ne_zero _) _

/-- C9: whenever the byte source yields zero pieces (unreadable or empty
file), `uploadImageToObject` reports the failure to the caller by returning
the empty result (backend.cpp:437-440) — no object descriptor is built. -/
theorem empty_payload_fails :
    ∀ (source : Option (List Nat)) (imageId : Nat),
      hash_file (pieceSizeFor (source.getD []).length) source = [] →
      uploadImageToObject source imageId = none := by
  intro source imageId h
  simp only [uploadImageToObject, h]
  rfl

/-- Witness for `empty_payload_fails`: the unreadable source (`none`) yields
zero pieces and the upload returns the empty result. -/
theorem empty_payload_fails_witness :
    hash_file (pieceSizeFor ((none : Option (List Nat)).getD []).length) none
        = [] ∧
    uploadImageToObject none 7 = none :=
  ⟨rfl, empty_payload_fails none 7 rfl⟩

/-- C1: resolution resilience — for any set of enumerated index keys of
which exactly `M` fetch with an error, each of the three resolvers issues
exactly `M` remove calls (one per failed key, in order), excludes those keys,
and still returns one result view per remaining key (`N - M` in total),
provided each remaining key resolves to a valid document of the expected
type; a per-key fetch failure never aborts the whole call. -/
theorem resolution_resilience :
    ∀ (storeR : String → DhtResponse ProductRatingDoc) (keysR : List String)
      (storeS : String → DhtResponse SellerRatingDoc) (keysS : List String)
      (storeL : String → DhtResponse ListingDoc) (hide : Bool)
      (keysL : List String),
      (∀ k ∈ keysR, respOk storeR projectProductRating k = true) →
      (∀ k ∈ keysS, respOk storeS projectSellerRating k = true) →
      (∀ k ∈ keysL, respOk storeL (projectListing hide) k = true) →
      ((getProductRatings storeR keysR).1.length
          = keysR.length - keysR.countP (fun k => isErrorResp (storeR k)) ∧
       (getProductRatings storeR keysR).2
          = keysR.filter (fun k => isErrorResp (storeR k))) ∧
      ((getSellerRatings storeS keysS).1.length
          = keysS.length - keysS.countP (fun k => isErrorResp (storeS k)) ∧
       (getSellerRatings storeS keysS).2
          = keysS.filter (fun k => isErrorResp (storeS k))) ∧
      ((getListingsLoop storeL hide keysL).1.length
          = keysL.length - keysL.countP (fun k => isErrorResp (storeL k)) ∧
       (getListingsLoop storeL hide keysL).2
          = keysL.filter (fun k => isErrorResp (storeL k))) := by
  intro storeR keysR storeS keysS storeL hide keysL hR hS hL
  exact ⟨resolveKeys_resilience storeR projectProductRating keysR hR,
         resolveKeys_resilience storeS projectSellerRating keysS hS,
         resolveKeys_resilience storeL (projectListing hide) keysL hL⟩

/-- Witness for `resolution_resilience`: three keys of which `"gone"` errors
give two product-rating views and one removal, and likewise for two-key
seller-rating and listing calls. -/
theorem resolution_resilience_witness :
    ((getProductRatings storeRatingsW ["k1", "gone", "k2"]).1.length
        = (["k1", "gone", "k2"] : List String).length
          - (["k1", "gone", "k2"] : List String).countP
              (fun k => isErrorResp (storeRatingsW k)) ∧
     (getProductRatings storeRatingsW ["k1", "gone", "k2"]).2
        = (["k1", "gone", "k2"] : List String).filter
            (fun k => isErrorResp (storeRatingsW k))) ∧
    ((getSellerRatings storeSellerW ["k1", "gone"]).1.length
        = (["k1", "gone"] : List String).length
          - (["k1", "gone"] : List String).countP
              (fun k => isErrorResp (storeSellerW k)) ∧
     (getSellerRatings storeSellerW ["k1", "gone"]).2
        = (["k1", "gone"] : List String).filter
            (fun k => isErrorResp (storeSellerW k))) ∧
    ((getListingsLoop storeListingW true ["k1", "gone"]).1.length
        = (["k1", "gone"] : List String).length
          - (["k1", "gone"] : List String).countP
              (fun k => isErrorResp (storeListingW k)) ∧
     (getListingsLoop storeListingW true ["k1", "gone"]).2
        = (["k1", "gone"] : List String).filter
            (fun k => isErrorResp (storeListingW k))) :=
  resolution_resilience storeRatingsW ["k1", "gone", "k2"]
    storeSellerW ["k1", "gone"] storeListingW true ["k1", "gone"]
    (by decide) (by decide) (by decide)

/-- C5 (counterexample): `getListingsBySearchTerm` reads the `metadata` tag
(backend.cpp:1161) but never compares it against `"listing"`: a fetched
document tagged `"user"` is NOT excluded — its projected view is returned in
the results (the claim requires zero results here). -/
theorem metadata_mismatch_counterexample :
    userMetaListingDoc.metadata ≠ "listing" ∧
    storeUserMetaL "k1" = .value userMetaListingDoc ∧
    (getListingsBySearchTermLoop storeUserMetaL false ["k1"]).1
        = [some (mkListingViewSearch "k1" userMetaListingDoc)] ∧
    (getListingsBySearchTermLoop storeUserMetaL false ["k1"]).2 = [] := by
  refine ⟨by decide, rfl, rfl, rfl⟩

/-- C5 (amended): a fetched document whose `metadata` tag differs from the
expected content type is excluded from the results with no remove call by
the product-rating, seller-rating, all-listings and by-category resolvers;
the by-search-term resolver, however, performs no metadata check — the
mismatched document is still projected and included in its results (and it
issues no remove call either). -/
theorem metadata_mismatch_handling :
    (∀ (store : String → DhtResponse ProductRatingDoc) (k : String)
       (ks : List String) (d : ProductRatingDoc),
       store k = .value d → d.metadata ≠ "product_rating" →
       getProductRatings store (k :: ks) = getProductRatings store ks) ∧
    (∀ (store : String → DhtResponse SellerRatingDoc) (k : String)
       (ks : List String) (d : SellerRatingDoc),
       store k = .value d → d.metadata ≠ "seller_rating" →
       getSellerRatings store (k :: ks) = getSellerRatings store ks) ∧
    (∀ (store : String → DhtResponse ListingDoc) (hide : Bool) (k : String)
       (ks : List String) (d : ListingDoc),
       store k = .value d → d.metadata ≠ "listing" →
       getListingsLoop store hide (k :: ks) = getListingsLoop store hide ks) ∧
    (∀ (store : String → DhtResponse ListingDoc) (hide : Bool) (k : String)
       (ks : List String) (d : ListingDoc),
       store k = .value d → d.metadata ≠ "listing" →
       getListingsByCategoryLoop store hide (k :: ks)
         = getListingsByCategoryLoop store hide ks) ∧
    (∀ (store : String → DhtResponse ListingDoc) (k : String)
       (ks : List String) (d : ListingDoc),
       store k = .value d → d.metadata ≠ "listing" →
       getListingsBySearchTermLoop store false (k :: ks)
         = (some (mkListingViewSearch k d)
              :: (getListingsBySearchTermLoop store false ks).1,
            (getListingsBySearchTermLoop store false ks).2)) := by
  refine ⟨?_, ?_, ?_, ?_, ?_⟩
  · intro store k ks d hk hm
    simp only [getProductRatings, resolveKeys, hk, projectProductRating,
      if_pos hm]
  · intro store k ks d hk hm
    simp only [getSellerRatings, resolveKeys, hk, projectSellerRating,
      if_pos hm]
  · intro store hide k ks d hk hm
    simp only [getListingsLoop, resolveKeys, hk, projectListing, if_pos hm]
  · intro store hide k ks d hk hm
    simp only [getListingsByCategoryLoop, resolveKeys, hk, projectListing,
      if_pos hm]
  · intro store k ks d hk hm
    simp only [getListingsBySearchTermLoop, resolveKeys, hk,
      projectListingSearch, Bool.false_and, Bool.false_eq_true, if_false]

/-- Witness for `metadata_mismatch_handling`: a rating key resolving to a
`"listing"`-tagged document contributes nothing, while the search-term
resolver returns the `"user"`-tagged listing document's view. -/
theorem metadata_mismatch_handling_witness :
    getProductRatings storeWrongMetaR ["k1"] = getProductRatings storeWrongMetaR [] ∧
    getListingsBySearchTermLoop storeUserMetaL false ["k1"]
      = (some (mkListingViewSearch "k1" userMetaListingDoc)
           :: (getListingsBySearchTermLoop storeUserMetaL false []).1,
         (getListingsBySearchTermLoop storeUserMetaL false []).2) :=
  ⟨metadata_mismatch_handling.1 storeWrongMetaR "k1" [] wrongMetaRatingDoc rfl
      (by decide),
   metadata_mismatch_handling.2.2.2.2 storeUserMetaL "k1" [] userMetaListingDoc
      rfl (by decide)⟩

/-- C6 (counterexample): a key whose fetch succeeds but whose envelope lacks
a usable string `value` does NOT contribute zero entries: `getProductRatings`
appends the still-empty `QVariantMap` (backend.cpp:599), so one (empty)
entry appears in the results; no remove call is issued. -/
theorem missing_value_counterexample :
    storeNoValueR "k1" = .noValue ∧
    (getProductRatings storeNoValueR ["k1"]).1 = [none] ∧
    (getProductRatings storeNoValueR ["k1"]).1.length = 1 ∧
    (getProductRatings storeNoValueR ["k1"]).2 = [] := by
  refine ⟨rfl, rfl, rfl, rfl⟩

/-- C6 (amended): for a key whose fetch succeeds but whose response envelope
lacks a usable string `value`, the resolver issues no remove call, yet it
does contribute exactly one entry to the result sequence — the empty map
appended unpopulated (backend.cpp:599, 1444), modelled as `none`. -/
theorem missing_value_handling :
    (∀ (store : String → DhtResponse ProductRatingDoc) (k : String)
       (ks : List String),
       store k = .noValue →
       getProductRatings store (k :: ks)
         = (none :: (getProductRatings store ks).1,
            (getProductRatings store ks).2)) ∧
    (∀ (store : String → DhtResponse ListingDoc) (hide : Bool) (k : String)
       (ks : List String),
       store k = .noValue →
       getListingsLoop store hide (k :: ks)
         = (none :: (getListingsLoop store hide ks).1,
            (getListingsLoop store hide ks).2)) := by
  constructor
  · intro store k ks hk
    simp only [getProductRatings, resolveKeys, hk]
  · intro store hide k ks hk
    simp only [getListingsLoop, resolveKeys, hk]

/-- Witness for `missing_value_handling` at the value-less stores. -/
theorem missing_value_handling_witness :
    getProductRatings storeNoValueR ["k2"]
      = (none :: (getProductRatings storeNoValueR []).1,
         (getProductRatings storeNoValueR []).2) ∧
    getListingsLoop storeNoValueL false ["k2"]
      = (none :: (getListingsLoop storeNoValueL false []).1,
         (getListingsLoop storeNoValueL false []).2) :=
  ⟨missing_value_handling.1 storeNoValueR "k2" [] rfl,
   missing_value_handling.2 storeNoValueL false "k2" [] rfl⟩

/-- C7 (counterexample): `sortBy` uses `std::sort`, which gives no stability
guarantee — on the two equal-priced entries `a = listingViewPrice "a" 5` and
`b = listingViewPrice "b" 5`, the input `[a, b]` is already sorted by price
ascending, yet `[b, a]` is an admissible `SortByPriceLowest` result: the
output need not be the identical sequence and tied items need not keep their
original relative order. -/
theorem sort_stability_counterexample :
    sortByRel (fun _ _ => False) (fun _ _ => False)
        [listingViewPrice "a" 5, listingViewPrice "b" 5]
        .SortByPriceLowest
        [listingViewPrice "b" 5, listingViewPrice "a" 5] ∧
    [listingViewPrice "b" 5, listingViewPrice "a" 5]
        ≠ [listingViewPrice "a" 5, listingViewPrice "b" 5] ∧
    ([listingViewPrice "a" 5, listingViewPrice "b" 5]
        : List (Option ListingView)).Pairwise
        (fun a b => priceOf a ≤ priceOf b) := by
  refine ⟨⟨List.Perm.swap _ _ _, ?_⟩, by decide, by decide⟩
  decide

/-- C7 (amended): every admissible `SortByPriceLowest` (`SortByPriceHighest`)
result of `sortBy` is a permutation of the catalog ordered by non-decreasing
(non-increasing) price; because `std::sort` is not stable, tied items may
appear in any order, and only when the input prices are strictly increasing
is the `SortByPriceLowest` result the identical sequence and the
`SortByPriceHighest` result its exact reverse. -/
theorem sort_price_characterization :
    ∀ (dtLt nameLt : String → String → Prop)
      (catalog sorted : List (Option ListingView)),
      (sortByRel dtLt nameLt catalog .SortByPriceLowest sorted →
        sorted.Perm catalog ∧
        sorted.Pairwise fun a b => priceOf a ≤ priceOf b) ∧
      (sortByRel dtLt nameLt catalog .SortByPriceHighest sorted →
        sorted.Perm catalog ∧
        sorted.Pairwise fun a b => priceOf b ≤ priceOf a) ∧
      (catalog.Pairwise (fun a b => priceOf a < priceOf b) →
        sortByRel dtLt nameLt catalog .SortByPriceLowest sorted →
        sorted = catalog) ∧
      (catalog.Pairwise (fun a b => priceOf a < priceOf b) →
        sortByRel dtLt nameLt catalog .SortByPriceHighest sorted →
        sorted = catalog.reverse) := by
  intro dtLt nameLt catalog sorted
  have hne : ∀ out : List (Option ListingView),
      out.Perm catalog →
      catalog.Pairwise (fun a b => priceOf a < priceOf b) →
      out.Pairwise fun a b => priceOf a ≠ priceOf b := by
    intro out hperm hstrict
    exact (List.Perm.pairwise_iff (fun h => Ne.symm h) hperm).mpr
      (hstrict.imp fun h => ne_of_lt h)
  refine ⟨?_, ?_, ?_, ?_⟩
  · rintro ⟨hperm, hsorted⟩
    exact ⟨hperm, hsorted.imp fun h => le_of_not_lt h⟩
  · rintro ⟨hperm, hsorted⟩
    exact ⟨hperm, hsorted.imp fun h => le_of_not_lt h⟩
  · rintro hstrict ⟨hperm, hsorted⟩
    have hlt : sorted.Pairwise fun a b => priceOf a < priceOf b :=
      ((hsorted.imp fun h => le_of_not_lt h).and
        (hne sorted hperm hstrict)).imp fun h => lt_of_le_of_ne h.1 h.2
    haveI : IsAntisymm (Option ListingView)
        (fun a b => priceOf a < priceOf b) :=
      ⟨fun _ _ h1 h2 => absurd h1 (lt_asymm h2)⟩
    exact List.eq_of_perm_of_sorted hperm hlt hstrict
  · rintro hstrict ⟨hperm, hsorted⟩
    have hgt : sorted.Pairwise fun a b => priceOf b < priceOf a :=
      ((hsorted.imp fun h => le_of_not_lt h).and
        (hne sorted hperm hstrict)).imp fun h =>
          lt_of_le_of_ne h.1 (Ne.symm h.2)
    have hrev : catalog.reverse.Pairwise fun a b => priceOf b < priceOf a :=
      List.pairwise_reverse.mpr hstrict
    have hperm2 : sorted.Perm catalog.reverse :=
      hperm.trans (List.reverse_perm catalog).symm
    haveI : IsAntisymm (Option ListingView)
        (fun a b => priceOf b < priceOf a) :=
      ⟨fun _ _ h1 h2 => absurd h1 (lt_asymm h2)⟩
    exact List.eq_of_perm_of_sorted hperm2 hgt hrev

/-- Witness for `sort_price_characterization` on the strictly-priced catalog
`[price 1, price 2]`: the only admissible `SortByPriceLowest` output is the
input itself, and `[price 2, price 1]` is an admissible `SortByPriceHighest`
output equal to the reverse. -/
theorem sort_price_characterization_witness :
    ([listingViewPrice "a" 1, listingViewPrice "b" 2]
        : List (Option ListingView))
      = [listingViewPrice "a" 1, listingViewPrice "b" 2] ∧
    ([listingViewPrice "b" 2, listingViewPrice "a" 1]
        : List (Option ListingView))
      = ([listingViewPrice "a" 1, listingViewPrice "b" 2]
          : List (Option ListingView)).reverse :=
  ⟨(sort_price_characterization (fun _ _ => False) (fun _ _ => False)
      [listingViewPrice "a" 1, listingViewPrice "b" 2]
      [listingViewPrice "a" 1, listingViewPrice "b" 2]).2.2.1
      (by decide) ⟨List.Perm.refl _, by decide⟩,
   (sort_price_characterization (fun _ _ => False) (fun _ _ => False)
      [listingViewPrice "a" 1, listingViewPrice "b" 2]
      [listingViewPrice "b" 2, listingViewPrice "a" 1]).2.2.2
      (by decide) ⟨List.Perm.swap _ _ _, by decide⟩⟩

/-- C8 (counterexample): the exact formula `⌊goodCount · 100 / total⌋` is
false of the code: for 29 score-1 ratings out of 50, the IEEE binary64
evaluation of `(29 / (double)50) * 100` at backend.cpp:666 yields
`57.99999999999999…` (the division rounds `0.58` down to
`5224175567749775 · 2⁻⁵³` and the multiplication rounds again), so
`static_cast<int>` returns 57, while `⌊29 · 100 / 50⌋ = 58`. -/
theorem seller_reputation_rounding_counterexample :
    fiftyRatings.length = 50 ∧
    fiftyRatings.countP (fun r => scoreOf r == 1) = 29 ∧
    getSellerReputation fiftyRatings = 57 ∧
    ((fiftyRatings.countP fun r => scoreOf r == 1) * 100
        / fiftyRatings.length : Nat) = 58 := by
  have hlen : fiftyRatings.length = 50 := by decide
  have hcnt : fiftyRatings.countP (fun r => scoreOf r == 1) = 29 := by decide
  have hceil2 : ⌈((29 : ℚ) / 50)⁻¹⌉₊ = 2 := by
    rw [show ((29 : ℚ) / 50)⁻¹ = 50 / 29 by norm_num,
      Nat.ceil_eq_iff (by norm_num)]
    norm_num
  have he1 : ratLog2 ((29 : ℚ) / 50) = -1 := by
    rw [ratLog2_lt_one _ (by norm_num) 2 hceil2,
      show natClog2 2 = 1 from by decide]
    norm_num
  have hm1 : rneInt ((29 : ℚ) / 50 * (2 : ℚ) ^ ((52 : ℤ) - (-1)))
      = 5224175567749775 := by
    rw [show (2 : ℚ) ^ ((52 : ℤ) - (-1)) = 9007199254740992 by norm_num]
    refine rneInt_down _ _ ?_ (by norm_num)
    rw [Int.floor_eq_iff]
    constructor <;> norm_num
  have hf1 : fl64 ((29 : ℚ) / 50) = 5224175567749775 / 9007199254740992 := by
    rw [fl64_eval_pos ((29 : ℚ) / 50) (-1) 5224175567749775 (by norm_num)
      he1 hm1]
    norm_num
  have hfloor57 : ⌊((5224175567749775 : ℚ) / 9007199254740992 * 100)⌋₊ = 57 := by
    rw [Nat.floor_eq_iff (by norm_num)]
    constructor <;> norm_num
  have he2 : ratLog2 ((5224175567749775 : ℚ) / 9007199254740992 * 100) = 5 := by
    rw [ratLog2_ge_one _ (by norm_num) 57 hfloor57,
      show natLog2 57 = 5 from by decide]
    norm_num
  have hm2 : rneInt ((5224175567749775 : ℚ) / 9007199254740992 * 100
        * (2 : ℚ) ^ ((52 : ℤ) - 5)) = 8162774324609023 := by
    rw [show (2 : ℚ) ^ ((52 : ℤ) - 5) = 140737488355328 by norm_num]
    refine rneInt_down _ _ ?_ (by norm_num)
    rw [Int.floor_eq_iff]
    constructor <;> norm_num
  have hf2 : fl64 ((5224175567749775 : ℚ) / 9007199254740992 * 100)
      = 8162774324609023 / 140737488355328 := by
    rw [fl64_eval_pos _ 5 8162774324609023 (by norm_num) he2 hm2]
    norm_num
  refine ⟨hlen, hcnt, ?_, by decide⟩
  simp only [getSellerReputation]
  rw [hlen, if_neg (by norm_num), foldl_count_int, hcnt]
  rw [show (((0 : ℤ) + ((29 : ℕ) : ℤ) : ℤ) : ℚ) / ((50 : ℕ) : ℚ) = 29 / 50 by
    push_cast; norm_num]
  rw [hf1, hf2]
  simp only [truncToInt]
  rw [if_neg (by norm_num), Int.floor_eq_iff]
  constructor <;> norm_num

/-- C8 (amended): `getSellerReputation` returns the IEEE binary64 evaluation
of `(goodCount / (double)total) * 100` truncated toward zero, where
`goodCount` is the number of ratings with score 1 — which can be one less
than the exact `⌊goodCount · 100 / total⌋` (57 instead of 58 at 29 of 50) —
and it returns the integer `0` (not an error, not null) for an empty ratings
list. -/
theorem seller_reputation_formula :
    ∀ (seller_ratings : List (Option SellerRatingView)),
      getSellerReputation seller_ratings
        = (if seller_ratings.length = 0 then 0
           else truncToInt (fl64 (fl64
             (((seller_ratings.countP fun r => scoreOf r == 1 : Nat) : ℚ)
               / (seller_ratings.length : ℚ)) * 100))) ∧
      getSellerReputation [] = 0 := by
  intro seller_ratings
  refine ⟨?_, rfl⟩
  simp only [getSellerReputation]
  by_cases h : seller_ratings.length = 0
  · simp [h]
  · rw [if_neg (show ¬ seller_ratings.length ≤ 0 by omega), if_neg h]
    simp only [foldl_count_int, zero_add, Int.cast_natCast]

/-- C10 (code bug): `getProductStarCount(const QString&, int)` never
terminates — it resolves the product's ratings and then calls the very same
overload with unchanged arguments (backend.cpp:499), so under any fuel bound
it produces no value; by contrast the `QVariantList` overload it was meant to
delegate to does compute the count of ratings whose stars equal `star_number`
clamped into `[1, 5]`. -/
theorem product_star_count_by_id_diverges :
    (∀ (store : String → DhtResponse ProductRatingDoc)
       (indexKeys : String → List String) (fuel : Nat)
       (product_id : String) (star_number : Int),
       getProductStarCountByIdStar store indexKeys fuel product_id star_number
         = none) ∧
    (∀ (product_ratings : List (Option ProductRatingView)) (star_number : Int),
       getProductStarCountStar product_ratings star_number
         = (product_ratings.countP fun r =>
             starsOf r == max 1 (min 5 star_number) : Nat)) := by
  constructor
  · intro store indexKeys fuel product_id star_number
    induction fuel with
    | zero => rfl
    | succ n ih => simpa [getProductStarCountByIdStar] using ih
  · intro product_ratings star_number
    unfold getProductStarCountStar
    have hclamp : (if (if star_number > 5 then 5 else star_number) < 1 then 1
        else if star_number > 5 then 5 else star_number)
        = max 1 (min 5 star_number) := by
      simp only [min_def, max_def]
      split_ifs <;> omega
    simp only [foldl_count_int, hclamp, zero_add]
